import Mathlib

/-!
Shallow embedding of the Railway-Reservation-System core (`src/main.py`).

The program keeps its state in a SQLite database: a `trains` table and one
dynamically named seat table `seats_<train_number>` per train.  We model the
database as a structure holding the list of train rows and an association
list from table name to seat rows.  Each Python data-access function becomes
a Lean function from a `DB` to a result paired with the successor `DB`;
a raised-and-uncaught Python exception (`ValueError` from
`sanitize_train_number`, or SQLite's "no such table" error) is modelled by a
dedicated `raised` outcome, and `st.error`/`st.success` calls become the
constructors of the outcome types.
-/

set_option maxHeartbeats 1000000

namespace Railway

/-- One row of a per-train seat table
(`seat_number, seat_type, booked, passenger_name, passenger_age, passenger_gender`).
`booked INTEGER 0/1` is a `Bool`; the three nullable passenger columns are
`Option`s. -/
structure Seat where
  seat_number : Nat
  seat_type : String
  booked : Bool
  passenger_name : Option String
  passenger_age : Option Int
  passenger_gender : Option String
deriving DecidableEq

/-- One row of the `trains` table. -/
structure Train where
  train_number : String
  train_name : String
  departure_date : String
  starting_destination : String
  ending_destination : String
deriving DecidableEq

/-- The database: the `trains` table plus the dynamically created seat tables,
keyed by their table name (`seats_<train_number>`). -/
structure DB where
  trains : List Train
  tables : List (String × List Seat)
deriving DecidableEq

/-- A character allowed by the regex `[A-Za-z0-9_]` of `sanitize_train_number`. -/
def identChar (c : Char) : Bool :=
  c.isUpper || c.isLower || c.isDigit || c = '_'

/-- `sanitize_train_number` (main.py:70): returns the train number when it
fully matches `[A-Za-z0-9_]+`, and `none` for the raised `ValueError`. -/
def sanitize_train_number (train_number : String) : Option String :=
  if !train_number.isEmpty && train_number.data.all identChar then
    some train_number
  else
    none

/-- `seat_table_name` (main.py:80): `f"seats_{tn}"` after sanitization. -/
def seat_table_name (train_number : String) : Option String :=
  (sanitize_train_number train_number).map (fun tn => "seats_" ++ tn)

/-- `categorize_seat` (main.py:88): classify a seat number by `n % 10`. -/
def categorize_seat (seat_number : Nat) : String :=
  let mod := seat_number % 10
  if [0, 4, 5, 9].contains mod then
    "Window"
  else if [2, 3, 6, 7].contains mod then
    "Aisle"
  else
    "Middle"

/-- The rows inserted by the seeding loop of `ensure_seat_table`
(main.py:123-125): seats `1..total_seats`, each categorized, unbooked,
with NULL passenger fields. -/
def seedRows (total_seats : Nat) : List Seat :=
  (List.range total_seats).map (fun i =>
    { seat_number := i + 1
      seat_type := categorize_seat (i + 1)
      booked := false
      passenger_name := none
      passenger_age := none
      passenger_gender := none })

/-- Look a table up by name (a `SELECT` against a dynamically named table;
`none` models SQLite's "no such table"). -/
def DB.getTable (db : DB) (t : String) : Option (List Seat) :=
  (db.tables.find? (fun p => p.1 == t)).map Prod.snd

/-- Store `rows` under table name `t`: replace the existing table of that
name, or create it. -/
def DB.setTable (db : DB) (t : String) (rows : List Seat) : DB :=
  if db.tables.any (fun p => p.1 == t) then
    { db with tables := db.tables.map (fun p => if p.1 == t then (t, rows) else p) }
  else
    { db with tables := db.tables ++ [(t, rows)] }

/-- `ensure_seat_table` (main.py:101): create the seat table if absent and
seed it only if empty.  `none` models the `ValueError` propagating out of
`seat_table_name`. -/
def ensure_seat_table (db : DB) (train_number : String) (total_seats : Nat) :
    Option DB :=
  match seat_table_name train_number with
  | none => none
  | some table =>
    match db.getTable table with
    | none => some (db.setTable table (seedRows total_seats))
    | some rows =>
      if rows.length == 0 then some (db.setTable table (seedRows total_seats))
      else some db

/-- The row returned by
`SELECT ... WHERE booked = 0 AND seat_type = ? ORDER BY seat_number ASC LIMIT 1`
once the `WHERE` filter has been applied: a linear scan keeping the row with
the lowest `seat_number`. -/
def selectLowest (rows : List Seat) : Option Seat :=
  rows.foldl
    (fun best s =>
      match best with
      | none => some s
      | some b => if s.seat_number < b.seat_number then some s else some b)
    none

/-- `allocate_next_available_seat` (main.py:211): ensure the seat table,
then return the lowest-numbered unbooked seat of the requested type (or
`none` inside when there is no such row).  The outer `Option` models the
uncaught `ValueError`; the returned `DB` carries the side effect of
`ensure_seat_table`. -/
def allocate_next_available_seat (db : DB) (train_number seat_type : String) :
    Option (Option Nat × DB) :=
  match ensure_seat_table db train_number 50 with
  | none => none
  | some db1 =>
    match seat_table_name train_number with
    | none => none
    | some table =>
      match db1.getTable table with
      | none => none
      | some rows =>
        let matching := rows.filter (fun s => !s.booked && s.seat_type == seat_type)
        some ((selectLowest matching).map Seat.seat_number, db1)

/-- Outcomes of `book_ticket`: the two `st.error` branches, the implicit
exception path, and the success message. -/
inductive BookResult where
  | trainNotFound
  | raised
  | noAvailableSeat
  | success (seat : Nat)
deriving DecidableEq

/-- `book_ticket` (main.py:226).  The `noAvailableSeat` guard is Python's
`if not seat_number:`, which is also taken when the allocated number is `0`;
the `UPDATE ... WHERE seat_number = ?` becomes a map over the rows. -/
def book_ticket (db : DB) (train_number passenger_name : String)
    (passenger_age : Int) (passenger_gender seat_type : String) :
    BookResult × DB :=
  if !(db.trains.any (fun t => t.train_number == train_number)) then
    (BookResult.trainNotFound, db)
  else
    match allocate_next_available_seat db train_number seat_type with
    | none => (BookResult.raised, db)
    | some (seatNum, db1) =>
      match seatNum with
      | none => (BookResult.noAvailableSeat, db1)
      | some n =>
        if n == 0 then (BookResult.noAvailableSeat, db1)
        else
          match seat_table_name train_number with
          | none => (BookResult.raised, db1)
          | some table =>
            match db1.getTable table with
            | none => (BookResult.raised, db1)
            | some rows =>
              let rows1 := rows.map (fun s =>
                if s.seat_number == n then
                  { s with
                      booked := true
                      passenger_name := some passenger_name.trim
                      passenger_age := some passenger_age
                      passenger_gender := some passenger_gender }
                else s)
              (BookResult.success n, db1.setTable table rows1)

/-- Outcomes of `cancel_tickets`. -/
inductive CancelResult where
  | trainNotFound
  | raised
  | seatNotFound
  | success
deriving DecidableEq

/-- `cancel_tickets` (main.py:256): check the train exists, check the seat
row exists, then clear the booked flag and NULL the passenger columns. -/
def cancel_tickets (db : DB) (train_number : String) (seat_number : Nat) :
    CancelResult × DB :=
  if !(db.trains.any (fun t => t.train_number == train_number)) then
    (CancelResult.trainNotFound, db)
  else
    match seat_table_name train_number with
    | none => (CancelResult.raised, db)
    | some table =>
      match db.getTable table with
      | none => (CancelResult.raised, db)
      | some rows =>
        if !(rows.any (fun s => s.seat_number == seat_number)) then
          (CancelResult.seatNotFound, db)
        else
          let rows1 := rows.map (fun s =>
            if s.seat_number == seat_number then
              { s with
                  booked := false
                  passenger_name := none
                  passenger_age := none
                  passenger_gender := none }
            else s)
          (CancelResult.success, db.setTable table rows1)

/-- Outcomes of `add_train`. -/
inductive AddResult where
  | validationError
  | duplicateTrain
  | raised
  | success
deriving DecidableEq

/-- `add_train` (main.py:138).  The emptiness check covers `train_number`,
`train_name`, `starting_destination` and `ending_destination` only; the
departure date is normalized to a string by the caller-side `isoformat`/`str`
conversion, which we model by taking the already normalized string. -/
def add_train (db : DB)
    (train_number train_name departure_date_str starting_destination
      ending_destination : String) : AddResult × DB :=
  if train_number.isEmpty || train_name.isEmpty || starting_destination.isEmpty
      || ending_destination.isEmpty then
    (AddResult.validationError, db)
  else
    match sanitize_train_number train_number with
    | none => (AddResult.validationError, db)
    | some _ =>
      if db.trains.any (fun t => t.train_number == train_number) then
        (AddResult.duplicateTrain, db)
      else
        let db1 : DB :=
          { db with
              trains := db.trains ++
                [{ train_number := train_number
                   train_name := train_name
                   departure_date := departure_date_str
                   starting_destination := starting_destination
                   ending_destination := ending_destination }] }
        match ensure_seat_table db1 train_number 50 with
        | none => (AddResult.raised, db1)
        | some db2 => (AddResult.success, db2)

/-- Outcomes of `delete_train` (the `valueError` case is the caught
`ValueError` from `seat_table_name`). -/
inductive DeleteResult where
  | notFound
  | dateMismatch
  | valueError
  | success
deriving DecidableEq

/-- `delete_train` (main.py:178): look the train up, compare the stored
departure date with the supplied one, drop the seat table, delete the train
row. -/
def delete_train (db : DB) (train_number departure_date_str : String) :
    DeleteResult × DB :=
  match db.trains.find? (fun t => t.train_number == train_number) with
  | none => (DeleteResult.notFound, db)
  | some row =>
    if row.departure_date != departure_date_str then
      (DeleteResult.dateMismatch, db)
    else
      match seat_table_name train_number with
      | none => (DeleteResult.valueError, db)
      | some table =>
        let db1 : DB := { db with tables := db.tables.filter (fun p => p.1 != table) }
        let db2 : DB :=
          { db1 with trains := db1.trains.filter (fun t => t.train_number != train_number) }
        (DeleteResult.success, db2)

/-! ### Helper lemmas about table storage -/

theorem find?_map_update_self (l : List (String × List Seat)) (t : String)
    (rows : List Seat) (h : l.any (fun p => p.1 == t) = true) :
    (l.map (fun p => if p.1 == t then (t, rows) else p)).find? (fun p => p.1 == t) =
      some (t, rows) := by
  induction l with
  | nil => simp at h
  | cons a l ih =>
    by_cases ha : a.1 = t
    · simp [List.find?_cons, ha]
    · have ha2 : (a.1 == t) = false := beq_eq_false_iff_ne.mpr ha
      have h3 : l.any (fun p => p.1 == t) = true := by
        simpa [List.any_cons, ha2] using h
      simpa [List.find?_cons, ha, ha2] using ih h3

theorem find?_append_self (l : List (String × List Seat)) (t : String)
    (rows : List Seat) (h : l.any (fun p => p.1 == t) = false) :
    (l ++ [(t, rows)]).find? (fun p => p.1 == t) = some (t, rows) := by
  induction l with
  | nil => simp [List.find?_cons]
  | cons a l ih =>
    have h1 : (a.1 == t) = false := by
      have := List.any_eq_false.mp h a (by simp)
      simpa using this
    have h2 : l.any (fun p => p.1 == t) = false := by
      simpa [List.any_cons, h1] using h
    simpa [List.cons_append, List.find?_cons, h1] using ih h2

theorem setTable_tables_pos (db : DB) (t : String) (rows : List Seat)
    (h : db.tables.any (fun p => p.1 == t) = true) :
    (db.setTable t rows).tables =
      db.tables.map (fun p => if p.1 == t then (t, rows) else p) := by
  simp [DB.setTable, h]

theorem setTable_tables_neg (db : DB) (t : String) (rows : List Seat)
    (h : db.tables.any (fun p => p.1 == t) = false) :
    (db.setTable t rows).tables = db.tables ++ [(t, rows)] := by
  simp [DB.setTable, h]

theorem getTable_setTable_self (db : DB) (t : String) (rows : List Seat) :
    (db.setTable t rows).getTable t = some rows := by
  by_cases h : db.tables.any (fun p => p.1 == t) = true
  · rw [DB.getTable, setTable_tables_pos db t rows h,
      find?_map_update_self db.tables t rows h]
    rfl
  · have h2 : db.tables.any (fun p => p.1 == t) = false := Bool.eq_false_iff.mpr h
    rw [DB.getTable, setTable_tables_neg db t rows h2,
      find?_append_self db.tables t rows h2]
    rfl

theorem find?_map_update_ne (l : List (String × List Seat)) (t t2 : String)
    (rows : List Seat) (h : t2 ≠ t) :
    (l.map (fun p => if p.1 == t then (t, rows) else p)).find? (fun p => p.1 == t2) =
      l.find? (fun p => p.1 == t2) := by
  induction l with
  | nil => simp
  | cons a l ih =>
    by_cases ha : a.1 = t
    · have ha2 : (a.1 == t2) = false := beq_eq_false_iff_ne.mpr (ha ▸ (Ne.symm h))
      have ht2 : (t == t2) = false := beq_eq_false_iff_ne.mpr (Ne.symm h)
      simpa [List.find?_cons, ha, ht2, ha2] using ih
    · have ha2 : (a.1 == t) = false := beq_eq_false_iff_ne.mpr ha
      by_cases hb : a.1 = t2
      · have hb2 : (a.1 == t2) = true := by simp [hb]
        simp [List.find?_cons, ha, ha2, hb2, -List.find?_map]
      · have hb2 : (a.1 == t2) = false := beq_eq_false_iff_ne.mpr hb
        simpa [List.find?_cons, ha, ha2, hb2, -List.find?_map] using ih

theorem getTable_setTable_ne (db : DB) (t t2 : String) (rows : List Seat)
    (h : t2 ≠ t) :
    (db.setTable t rows).getTable t2 = db.getTable t2 := by
  by_cases hany : db.tables.any (fun p => p.1 == t) = true
  · rw [DB.getTable, setTable_tables_pos db t rows hany,
      find?_map_update_ne db.tables t t2 rows h]
    rfl
  · have h2 : db.tables.any (fun p => p.1 == t) = false := Bool.eq_false_iff.mpr hany
    rw [DB.getTable, setTable_tables_neg db t rows h2, List.find?_append]
    have h3 : ([(t, rows)].find? (fun p => p.1 == t2)) = none := by
      have ht2 : (t == t2) = false := beq_eq_false_iff_ne.mpr (Ne.symm h)
      simp [List.find?_cons, ht2]
    rw [h3]
    rw [DB.getTable]
    cases db.tables.find? (fun p => p.1 == t2) <;> rfl

theorem setTable_trains (db : DB) (t : String) (rows : List Seat) :
    (db.setTable t rows).trains = db.trains := by
  rw [DB.setTable]
  by_cases h : db.tables.any (fun p => p.1 == t) = true <;> simp [h]

theorem setTable_setTable (db : DB) (t : String) (a b : List Seat) :
    (db.setTable t a).setTable t b = db.setTable t b := by
  by_cases h : db.tables.any (fun p => p.1 == t) = true
  · obtain ⟨p, hp, hpt⟩ := List.any_eq_true.mp h
    have hany2 : ((db.setTable t a).tables.any (fun p => p.1 == t)) = true := by
      rw [setTable_tables_pos db t a h]
      refine List.any_eq_true.mpr ⟨(t, a), List.mem_map.mpr ⟨p, hp, ?_⟩, by simp⟩
      have : p.1 = t := by simpa using hpt
      simp [this]
    have e1 : (db.setTable t a).setTable t b =
        { db.setTable t a with
            tables := (db.setTable t a).tables.map
              (fun p => if p.1 == t then (t, b) else p) } := by
      rw [DB.setTable, if_pos hany2]
    rw [e1]
    have e2 : db.setTable t b =
        { db with tables := db.tables.map (fun p => if p.1 == t then (t, b) else p) } := by
      rw [DB.setTable, if_pos h]
    rw [e2]
    have etr : (db.setTable t a).trains = db.trains := setTable_trains db t a
    have etab : (db.setTable t a).tables.map (fun p => if p.1 == t then (t, b) else p) =
        db.tables.map (fun p => if p.1 == t then (t, b) else p) := by
      rw [setTable_tables_pos db t a h, List.map_map]
      refine List.map_congr_left ?_
      intro q _
      by_cases hq : q.1 = t
      · simp [Function.comp, hq]
      · simp [Function.comp, hq]
    cases db with
    | mk trains tables =>
      simp_all
  · have h2 : db.tables.any (fun p => p.1 == t) = false := Bool.eq_false_iff.mpr h
    have hall : ∀ p ∈ db.tables, (p.1 == t) = false := by
      intro p hp
      have := List.any_eq_false.mp h2 p hp
      simpa using this
    have hany2 : ((db.setTable t a).tables.any (fun p => p.1 == t)) = true := by
      rw [setTable_tables_neg db t a h2]
      exact List.any_eq_true.mpr ⟨(t, a), List.mem_append_right _ (by simp), by simp⟩
    have e1 : (db.setTable t a).setTable t b =
        { db.setTable t a with
            tables := (db.setTable t a).tables.map
              (fun p => if p.1 == t then (t, b) else p) } := by
      rw [DB.setTable, if_pos hany2]
    rw [e1]
    have e2 : db.setTable t b = { db with tables := db.tables ++ [(t, b)] } := by
      rw [DB.setTable, if_neg (by simp [h2])]
    rw [e2]
    have etab : (db.setTable t a).tables.map (fun p => if p.1 == t then (t, b) else p) =
        db.tables ++ [(t, b)] := by
      rw [setTable_tables_neg db t a h2, List.map_append]
      have hmap : db.tables.map (fun p => if p.1 == t then (t, b) else p) = db.tables := by
        conv_rhs => rw [← List.map_id db.tables]
        refine List.map_congr_left ?_
        intro p hp
        have : ¬(p.1 = t) := by simpa using (beq_eq_false_iff_ne.mp (hall p hp))
        simp [this]
      rw [hmap]
      simp
    have etr : (db.setTable t a).trains = db.trains := setTable_trains db t a
    cases db with
    | mk trains tables =>
      simp_all

/-! ### Lemmas about `ensure_seat_table` -/

theorem ensure_noop (db : DB) (tn table : String) (rows : List Seat) (total : Nat)
    (h1 : seat_table_name tn = some table) (h2 : db.getTable table = some rows)
    (h3 : rows ≠ []) :
    ensure_seat_table db tn total = some db := by
  have hlen : (rows.length == 0) = false := by
    cases rows with
    | nil => exact absurd rfl h3
    | cons a l => rfl
  simp only [ensure_seat_table, h1, h2, hlen]
  rfl

theorem ensure_fresh (db : DB) (tn table : String) (total : Nat)
    (h1 : seat_table_name tn = some table) (h2 : db.getTable table = none) :
    ensure_seat_table db tn total = some (db.setTable table (seedRows total)) := by
  simp only [ensure_seat_table, h1, h2]

theorem ensure_isSome (db : DB) (tn table : String) (total : Nat)
    (h1 : seat_table_name tn = some table) :
    ∃ db2, ensure_seat_table db tn total = some db2 := by
  simp only [ensure_seat_table, h1]
  cases h2 : db.getTable table with
  | none => exact ⟨_, rfl⟩
  | some rows =>
    cases hl : (rows.length == 0) <;> simp [hl]

/-! ### Lemmas about `selectLowest` -/

theorem foldl_lowest_some (rows : List Seat) (b : Seat) :
    ∃ r, rows.foldl
        (fun best s =>
          match best with
          | none => some s
          | some b => if s.seat_number < b.seat_number then some s else some b)
        (some b) = some r ∧ (r = b ∨ r ∈ rows) ∧ r.seat_number ≤ b.seat_number ∧
      ∀ s ∈ rows, r.seat_number ≤ s.seat_number := by
  induction rows generalizing b with
  | nil => exact ⟨b, rfl, Or.inl rfl, Nat.le_refl _, by simp⟩
  | cons a l ih =>
    by_cases h : a.seat_number < b.seat_number
    · obtain ⟨r, h1, h2, h3, h4⟩ := ih a
      refine ⟨r, ?_, ?_, ?_, ?_⟩
      · simpa [List.foldl_cons, h] using h1
      · rcases h2 with h2 | h2
        · subst h2
          exact Or.inr (List.mem_cons_self _ _)
        · exact Or.inr (List.mem_cons_of_mem _ h2)
      · exact Nat.le_trans h3 (Nat.le_of_lt h)
      · intro s hs
        rcases List.mem_cons.mp hs with hs | hs
        · exact hs ▸ h3
        · exact h4 s hs
    · obtain ⟨r, h1, h2, h3, h4⟩ := ih b
      refine ⟨r, ?_, ?_, h3, ?_⟩
      · simpa [List.foldl_cons, h] using h1
      · rcases h2 with h2 | h2
        · exact Or.inl h2
        · exact Or.inr (List.mem_cons_of_mem _ h2)
      · intro s hs
        rcases List.mem_cons.mp hs with hs | hs
        · subst hs
          exact Nat.le_trans h3 (Nat.le_of_not_lt h)
        · exact h4 s hs

theorem selectLowest_cons (a : Seat) (l : List Seat) :
    ∃ r, selectLowest (a :: l) = some r ∧ r ∈ a :: l ∧
      ∀ s ∈ a :: l, r.seat_number ≤ s.seat_number := by
  obtain ⟨r, h1, h2, h3, h4⟩ := foldl_lowest_some l a
  refine ⟨r, ?_, ?_, ?_⟩
  · rw [selectLowest, List.foldl_cons]
    exact h1
  · rcases h2 with h2 | h2
    · exact h2 ▸ List.mem_cons_self _ _
    · exact List.mem_cons_of_mem _ h2
  · intro s hs
    rcases List.mem_cons.mp hs with hs | hs
    · exact hs ▸ h3
    · exact h4 s hs

theorem selectLowest_spec (rows : List Seat) (h : rows ≠ []) :
    ∃ r, selectLowest rows = some r ∧ r ∈ rows ∧
      ∀ s ∈ rows, r.seat_number ≤ s.seat_number := by
  cases rows with
  | nil => exact absurd rfl h
  | cons a l => exact selectLowest_cons a l

/-! ### The core allocation equation -/

theorem allocate_eq (db : DB) (tn cat table : String) (rows : List Seat)
    (h1 : seat_table_name tn = some table) (h2 : db.getTable table = some rows)
    (h3 : rows ≠ []) :
    allocate_next_available_seat db tn cat =
      some ((selectLowest
        (rows.filter (fun s => !s.booked && s.seat_type == cat))).map Seat.seat_number,
        db) := by
  have he := ensure_noop db tn table rows 50 h1 h2 h3
  simp only [allocate_next_available_seat, he, h1, h2]

/-! ### Concrete databases used by the witnesses -/

/-- The empty database (fresh `railway_system.db`). -/
def dbE : DB := ⟨[], []⟩

/-- A database holding train `T1` together with its freshly seeded seat
table, the state reached right after `add_train`. -/
def dbW : DB :=
  ⟨[{ train_number := "T1", train_name := "Express", departure_date := "2025-01-01",
      starting_destination := "A", ending_destination := "B" }],
   [("seats_T1", seedRows 50)]⟩

/-- The boolean `WHERE booked = 0 AND seat_type = ?` condition, read as a
proposition. -/
theorem filter_cond_iff (s : Seat) (cat : String) :
    ((!s.booked && s.seat_type == cat) = true) ↔
      (s.booked = false ∧ s.seat_type = cat) := by
  simp [Bool.and_eq_true, Bool.not_eq_true', beq_iff_eq]

/-- `categorize_seat` only depends on the seat number modulo 10. -/
theorem categorize_seat_mod (n : Nat) :
    categorize_seat n = categorize_seat (n % 10) := by
  unfold categorize_seat
  rw [Nat.mod_mod_of_dvd n (dvd_refl 10)]

/-- C2: for every seat number `n` the classification function is
deterministic and classifies by `n % 10`: residues `{0,4,5,9}` give
`Window`, `{2,3,6,7}` give `Aisle`, and `{1,8}` give `Middle`. -/
theorem categorize_seat_by_mod (n : Nat) :
    ((n % 10 = 0 ∨ n % 10 = 4 ∨ n % 10 = 5 ∨ n % 10 = 9) →
        categorize_seat n = "Window") ∧
    ((n % 10 = 2 ∨ n % 10 = 3 ∨ n % 10 = 6 ∨ n % 10 = 7) →
        categorize_seat n = "Aisle") ∧
    ((n % 10 = 1 ∨ n % 10 = 8) → categorize_seat n = "Middle") := by
  have h10 : n % 10 < 10 := Nat.mod_lt n (by decide)
  rw [categorize_seat_mod]
  revert h10
  generalize n % 10 = m
  intro h10
  interval_cases m <;> decide

/-- Witness for C2 at seat numbers 26, 14 and 31. -/
theorem categorize_seat_by_mod_witness :
    categorize_seat 26 = "Aisle" ∧ categorize_seat 14 = "Window" ∧
      categorize_seat 31 = "Middle" :=
  ⟨(categorize_seat_by_mod 26).2.1 (by decide),
   (categorize_seat_by_mod 14).1 (by decide),
   (categorize_seat_by_mod 31).2.2 (by decide)⟩

/-- C1: on a train whose seat table exists and is nonempty,
`allocate_next_available_seat` leaves the database unchanged and returns the
smallest seat number among the unbooked seats of the requested category, or
`none` when no unbooked seat of that category exists. -/
theorem allocate_returns_smallest_unbooked (db : DB) (tn cat table : String)
    (rows : List Seat) (h1 : seat_table_name tn = some table)
    (h2 : db.getTable table = some rows) (h3 : rows ≠ []) :
    ∃ r, allocate_next_available_seat db tn cat = some (r, db) ∧
      ((r = none ∧ ∀ s ∈ rows, ¬(s.booked = false ∧ s.seat_type = cat)) ∨
       (∃ n, r = some n ∧
         (∃ s ∈ rows, s.booked = false ∧ s.seat_type = cat ∧ s.seat_number = n) ∧
         ∀ s ∈ rows, s.booked = false → s.seat_type = cat →
           n ≤ s.seat_number)) := by
  rw [allocate_eq db tn cat table rows h1 h2 h3]
  cases hm : rows.filter (fun s => !s.booked && s.seat_type == cat) with
  | nil =>
    refine ⟨none, rfl, Or.inl ⟨rfl, ?_⟩⟩
    intro s hs hcond
    have hmem : s ∈ rows.filter (fun s => !s.booked && s.seat_type == cat) :=
      List.mem_filter.mpr ⟨hs, (filter_cond_iff s cat).mpr hcond⟩
    rw [hm] at hmem
    exact absurd hmem (List.not_mem_nil s)
  | cons a l =>
    obtain ⟨r, hr1, hr2, hr3⟩ := selectLowest_cons a l
    refine ⟨some r.seat_number, by rw [hr1]; rfl,
      Or.inr ⟨r.seat_number, rfl, ?_, ?_⟩⟩
    · have hrmem : r ∈ rows.filter (fun s => !s.booked && s.seat_type == cat) := by
        rw [hm]; exact hr2
      obtain ⟨hrrows, hrcond⟩ := List.mem_filter.mp hrmem
      obtain ⟨hb, ht⟩ := (filter_cond_iff r cat).mp hrcond
      exact ⟨r, hrrows, hb, ht, rfl⟩
    · intro s hs hb ht
      have hmem : s ∈ rows.filter (fun s => !s.booked && s.seat_type == cat) :=
        List.mem_filter.mpr ⟨hs, (filter_cond_iff s cat).mpr ⟨hb, ht⟩⟩
      rw [hm] at hmem
      exact hr3 s hmem

/-- Witness for C1: on the freshly seeded `T1`, allocating a Window seat. -/
theorem allocate_returns_smallest_unbooked_witness :
    ∃ r, allocate_next_available_seat dbW "T1" "Window" = some (r, dbW) ∧
      ((r = none ∧ ∀ s ∈ seedRows 50,
          ¬(s.booked = false ∧ s.seat_type = "Window")) ∨
       (∃ n, r = some n ∧
         (∃ s ∈ seedRows 50, s.booked = false ∧ s.seat_type = "Window" ∧
           s.seat_number = n) ∧
         ∀ s ∈ seedRows 50, s.booked = false → s.seat_type = "Window" →
           n ≤ s.seat_number)) :=
  allocate_returns_smallest_unbooked dbW "T1" "Window" "seats_T1" (seedRows 50)
    (by decide) (by decide) (by decide)

/-! ### Booking -/

/-- C3: on a known train whose seat table has at least one unbooked seat of
the requested category, `book_ticket` succeeds, books exactly the
lowest-numbered unbooked seat of that category — storing the trimmed
passenger name, the integer age and the gender on it — and leaves every
other seat, every other table and the train registry unchanged. -/
theorem book_success_updates_lowest (db : DB) (tn nm g cat table : String)
    (age : Int) (rows : List Seat)
    (htrain : db.trains.any (fun t => t.train_number == tn) = true)
    (h1 : seat_table_name tn = some table)
    (h2 : db.getTable table = some rows)
    (hpos : ∀ s ∈ rows, 1 ≤ s.seat_number)
    (hex : ∃ s ∈ rows, s.booked = false ∧ s.seat_type = cat) :
    ∃ n rows1,
      book_ticket db tn nm age g cat =
        (BookResult.success n, db.setTable table rows1) ∧
      (∃ s ∈ rows, s.booked = false ∧ s.seat_type = cat ∧ s.seat_number = n) ∧
      (∀ s ∈ rows, s.booked = false → s.seat_type = cat → n ≤ s.seat_number) ∧
      rows1 = rows.map (fun s =>
        if s.seat_number = n then
          { s with
              booked := true
              passenger_name := some nm.trim
              passenger_age := some age
              passenger_gender := some g }
        else s) ∧
      (∀ s ∈ rows, s.seat_number ≠ n → s ∈ rows1) ∧
      (db.setTable table rows1).trains = db.trains ∧
      (∀ t2, t2 ≠ table → (db.setTable table rows1).getTable t2 = db.getTable t2) := by
  obtain ⟨s0, hs0, hb0, ht0⟩ := hex
  have h3 : rows ≠ [] := List.ne_nil_of_mem hs0
  have hmne : rows.filter (fun s => !s.booked && s.seat_type == cat) ≠ [] :=
    List.ne_nil_of_mem
      (List.mem_filter.mpr ⟨hs0, (filter_cond_iff s0 cat).mpr ⟨hb0, ht0⟩⟩)
  obtain ⟨r, hr1, hr2, hr3⟩ := selectLowest_spec _ hmne
  obtain ⟨hrrows, hrcond⟩ := List.mem_filter.mp hr2
  obtain ⟨hrb, hrt⟩ := (filter_cond_iff r cat).mp hrcond
  have hn1 : 1 ≤ r.seat_number := hpos r hrrows
  have hn0 : (r.seat_number == 0) = false := beq_eq_false_iff_ne.mpr (by omega)
  have halloc := allocate_eq db tn cat table rows h1 h2 h3
  rw [hr1] at halloc
  rw [show Option.map Seat.seat_number (some r) = some r.seat_number from rfl]
    at halloc
  have hmapeq : rows.map (fun s =>
      if s.seat_number == r.seat_number then
        { s with
            booked := true
            passenger_name := some nm.trim
            passenger_age := some age
            passenger_gender := some g }
      else s) = rows.map (fun s =>
      if s.seat_number = r.seat_number then
        { s with
            booked := true
            passenger_name := some nm.trim
            passenger_age := some age
            passenger_gender := some g }
      else s) := by
    refine List.map_congr_left ?_
    intro s _
    by_cases hsn : s.seat_number = r.seat_number
    · simp [hsn]
    · simp [hsn, beq_eq_false_iff_ne.mpr hsn]
  have hbook : book_ticket db tn nm age g cat =
      (BookResult.success r.seat_number,
        db.setTable table (rows.map (fun s =>
          if s.seat_number = r.seat_number then
            { s with
                booked := true
                passenger_name := some nm.trim
                passenger_age := some age
                passenger_gender := some g }
          else s))) := by
    rw [book_ticket]
    simp only [htrain, Bool.not_true, Bool.false_eq_true, if_false, halloc,
      Option.map_some, hn0, h1, h2, hmapeq]
  refine ⟨r.seat_number, _, hbook, ⟨r, hrrows, hrb, hrt, rfl⟩, ?_, rfl, ?_, ?_, ?_⟩
  · intro s hs hb ht
    exact hr3 s (List.mem_filter.mpr ⟨hs, (filter_cond_iff s cat).mpr ⟨hb, ht⟩⟩)
  · intro s hs hne
    refine List.mem_map.mpr ⟨s, hs, ?_⟩
    simp [hne]
  · exact setTable_trains db table _
  · intro t2 ht2
    exact getTable_setTable_ne db table t2 _ ht2

/-- `book_ticket` on an unknown train fails immediately. -/
theorem book_unknown_train (db : DB) (tn nm g cat : String) (age : Int)
    (h : db.trains.any (fun t => t.train_number == tn) = false) :
    book_ticket db tn nm age g cat = (BookResult.trainNotFound, db) := by
  rw [book_ticket]
  simp only [h, Bool.not_false, if_true]

/-- `book_ticket` on a known train with a nonempty seat table holding no
unbooked seat of the requested category fails with no state change. -/
theorem book_no_matching_seat (db : DB) (tn nm g cat table : String)
    (age : Int) (rows : List Seat)
    (htrain : db.trains.any (fun t => t.train_number == tn) = true)
    (h1 : seat_table_name tn = some table)
    (h2 : db.getTable table = some rows) (h3 : rows ≠ [])
    (hnone : ∀ s ∈ rows, ¬(s.booked = false ∧ s.seat_type = cat)) :
    book_ticket db tn nm age g cat = (BookResult.noAvailableSeat, db) := by
  have hfilter : rows.filter (fun s => !s.booked && s.seat_type == cat) = [] := by
    refine List.filter_eq_nil_iff.mpr ?_
    intro s hs
    rw [filter_cond_iff]
    exact hnone s hs
  have halloc := allocate_eq db tn cat table rows h1 h2 h3
  rw [hfilter] at halloc
  have hsel : (selectLowest ([] : List Seat)).map Seat.seat_number = none := rfl
  rw [hsel] at halloc
  rw [book_ticket]
  simp only [htrain, Bool.not_true, Bool.false_eq_true, if_false, halloc]

/-- C4: `book_ticket` fails with `trainNotFound` on an unknown train id and
with `noAvailableSeat` when the (nonempty) seat table holds no unbooked seat
of the requested category; in both cases the database — all booked flags
and passenger fields included — is left exactly unchanged. -/
theorem book_failure_leaves_state (db : DB) (tn nm g cat table : String)
    (age : Int) (rows : List Seat) :
    (db.trains.any (fun t => t.train_number == tn) = false →
      book_ticket db tn nm age g cat = (BookResult.trainNotFound, db)) ∧
    (db.trains.any (fun t => t.train_number == tn) = true →
      seat_table_name tn = some table → db.getTable table = some rows →
      rows ≠ [] → (∀ s ∈ rows, ¬(s.booked = false ∧ s.seat_type = cat)) →
      book_ticket db tn nm age g cat = (BookResult.noAvailableSeat, db)) :=
  ⟨fun h => book_unknown_train db tn nm g cat age h,
   fun htrain h1 h2 h3 hnone =>
     book_no_matching_seat db tn nm g cat table age rows htrain h1 h2 h3 hnone⟩

/-- Witness for C3: booking a Window seat on the freshly seeded `T1`. -/
theorem book_success_updates_lowest_witness :
    ∃ n rows1,
      book_ticket dbW "T1" "Alice" 30 "Female" "Window" =
        (BookResult.success n, dbW.setTable "seats_T1" rows1) ∧
      (∃ s ∈ seedRows 50, s.booked = false ∧ s.seat_type = "Window" ∧
        s.seat_number = n) ∧
      (∀ s ∈ seedRows 50, s.booked = false → s.seat_type = "Window" →
        n ≤ s.seat_number) ∧
      rows1 = (seedRows 50).map (fun s =>
        if s.seat_number = n then
          { s with
              booked := true
              passenger_name := some ("Alice" : String).trim
              passenger_age := some (30 : Int)
              passenger_gender := some "Female" }
        else s) ∧
      (∀ s ∈ seedRows 50, s.seat_number ≠ n → s ∈ rows1) ∧
      (dbW.setTable "seats_T1" rows1).trains = dbW.trains ∧
      (∀ t2, t2 ≠ "seats_T1" →
        (dbW.setTable "seats_T1" rows1).getTable t2 = dbW.getTable t2) :=
  book_success_updates_lowest dbW "T1" "Alice" "Female" "Window" "seats_T1" 30
    (seedRows 50) (by decide) (by decide) (by decide) (by decide)
    ⟨{ seat_number := 4, seat_type := "Window", booked := false,
       passenger_name := none, passenger_age := none, passenger_gender := none },
     by decide, by decide, by decide⟩

/-- Witness for C4: booking on the empty database, and booking a category
with no remaining seat (no seeded seat carries type `Recliner`). -/
theorem book_failure_leaves_state_witness :
    ((dbE.trains.any (fun t => t.train_number == "T1") = false →
       book_ticket dbE "T1" "Alice" 30 "Female" "Window" =
         (BookResult.trainNotFound, dbE)) ∧
     (dbE.trains.any (fun t => t.train_number == "T1") = true →
       seat_table_name "T1" = some "seats_T1" →
       dbE.getTable "seats_T1" = some (seedRows 50) → seedRows 50 ≠ [] →
       (∀ s ∈ seedRows 50, ¬(s.booked = false ∧ s.seat_type = "Window")) →
       book_ticket dbE "T1" "Alice" 30 "Female" "Window" =
         (BookResult.noAvailableSeat, dbE))) ∧
    book_ticket dbE "T1" "Alice" 30 "Female" "Window" =
      (BookResult.trainNotFound, dbE) ∧
    book_ticket dbW "T1" "Alice" 30 "Female" "Recliner" =
      (BookResult.noAvailableSeat, dbW) :=
  ⟨book_failure_leaves_state dbE "T1" "Alice" "Female" "Window" "seats_T1" 30
      (seedRows 50),
   (book_failure_leaves_state dbE "T1" "Alice" "Female" "Window" "seats_T1" 30
      (seedRows 50)).1 (by decide),
   (book_failure_leaves_state dbW "T1" "Alice" "Female" "Recliner" "seats_T1" 30
      (seedRows 50)).2 (by decide) (by decide) (by decide) (by decide)
      (by decide)⟩

/-- C10: on a known train whose (nonempty) seat table only carries the three
seeded categories, `book_ticket` with a category outside
`{Window, Aisle, Middle}` is not rejected as a validation error: it fails
with `noAvailableSeat` and leaves the database unchanged. -/
theorem book_unknown_category_no_seat (db : DB) (tn nm g cat table : String)
    (age : Int) (rows : List Seat)
    (htrain : db.trains.any (fun t => t.train_number == tn) = true)
    (h1 : seat_table_name tn = some table)
    (h2 : db.getTable table = some rows) (h3 : rows ≠ [])
    (htypes : ∀ s ∈ rows, s.seat_type = "Window" ∨ s.seat_type = "Aisle" ∨
      s.seat_type = "Middle")
    (hcat : cat ≠ "Window" ∧ cat ≠ "Aisle" ∧ cat ≠ "Middle") :
    book_ticket db tn nm age g cat = (BookResult.noAvailableSeat, db) := by
  refine book_no_matching_seat db tn nm g cat table age rows htrain h1 h2 h3 ?_
  intro s hs hcond
  rcases htypes s hs with ht | ht | ht
  · exact hcat.1 (ht ▸ hcond.2.symm)
  · exact hcat.2.1 (ht ▸ hcond.2.symm)
  · exact hcat.2.2 (ht ▸ hcond.2.symm)

/-- Witness for C10: booking a `Recliner` seat on the seeded `T1`. -/
theorem book_unknown_category_no_seat_witness :
    book_ticket dbW "T1" "Bob" 40 "Male" "Recliner" =
      (BookResult.noAvailableSeat, dbW) :=
  book_unknown_category_no_seat dbW "T1" "Bob" "Male" "Recliner" "seats_T1" 40
    (seedRows 50) (by decide) (by decide) (by decide) (by decide) (by decide)
    (by decide)

/-! ### Cancellation -/

/-- Rewriting the boolean equality test of the clearing `UPDATE` into a
propositional one. -/
theorem clear_if_beq_eq (n : Nat) (rows : List Seat) :
    rows.map (fun s =>
      if s.seat_number == n then
        { s with
            booked := false
            passenger_name := none
            passenger_age := none
            passenger_gender := none }
      else s) =
    rows.map (fun s =>
      if s.seat_number = n then
        { s with
            booked := false
            passenger_name := none
            passenger_age := none
            passenger_gender := none }
      else s) := by
  refine List.map_congr_left ?_
  intro s _
  by_cases hsn : s.seat_number = n
  · simp [hsn]
  · simp [hsn, beq_eq_false_iff_ne.mpr hsn]

/-- Clearing the same seat twice is the same as clearing it once. -/
theorem clear_map_idem (n : Nat) (rows : List Seat) :
    (rows.map (fun s =>
      if s.seat_number = n then
        { s with
            booked := false
            passenger_name := none
            passenger_age := none
            passenger_gender := none }
      else s)).map (fun s =>
      if s.seat_number = n then
        { s with
            booked := false
            passenger_name := none
            passenger_age := none
            passenger_gender := none }
      else s) =
    rows.map (fun s =>
      if s.seat_number = n then
        { s with
            booked := false
            passenger_name := none
            passenger_age := none
            passenger_gender := none }
      else s) := by
  rw [List.map_map]
  refine List.map_congr_left ?_
  intro s _
  by_cases hsn : s.seat_number = n
  · simp [Function.comp, hsn]
  · simp [Function.comp, hsn]

/-- C5: on a known train, cancelling a seat number present in the seat table
always succeeds, clearing the booked flag and all passenger fields whatever
the seat's prior state, while every other seat is unchanged; and the
operation is idempotent — a second cancel of the same, now-unbooked seat
succeeds as a no-op, with no `NotBooked`-style error. -/
theorem cancel_clears_and_idempotent (db : DB) (tn table : String) (n : Nat)
    (rows : List Seat)
    (htrain : db.trains.any (fun t => t.train_number == tn) = true)
    (h1 : seat_table_name tn = some table)
    (h2 : db.getTable table = some rows)
    (hmem : ∃ s ∈ rows, s.seat_number = n) :
    ∃ rows1,
      cancel_tickets db tn n = (CancelResult.success, db.setTable table rows1) ∧
      rows1 = rows.map (fun s =>
        if s.seat_number = n then
          { s with
              booked := false
              passenger_name := none
              passenger_age := none
              passenger_gender := none }
        else s) ∧
      (∀ s ∈ rows1, s.seat_number = n →
        s.booked = false ∧ s.passenger_name = none ∧ s.passenger_age = none ∧
          s.passenger_gender = none) ∧
      (∀ s ∈ rows, s.seat_number ≠ n → s ∈ rows1) ∧
      cancel_tickets (db.setTable table rows1) tn n =
        (CancelResult.success, db.setTable table rows1) := by
  obtain ⟨s0, hs0, hsn0⟩ := hmem
  have hany : rows.any (fun s => s.seat_number == n) = true :=
    List.any_eq_true.mpr ⟨s0, hs0, by simp [hsn0]⟩
  have hcancel : cancel_tickets db tn n =
      (CancelResult.success, db.setTable table (rows.map (fun s =>
        if s.seat_number = n then
          { s with
              booked := false
              passenger_name := none
              passenger_age := none
              passenger_gender := none }
        else s))) := by
    rw [cancel_tickets]
    simp only [htrain, Bool.not_true, Bool.false_eq_true, if_false, h1, h2,
      hany, clear_if_beq_eq]
  refine ⟨rows.map (fun s =>
      if s.seat_number = n then
        { s with
            booked := false
            passenger_name := none
            passenger_age := none
            passenger_gender := none }
      else s), hcancel, rfl, ?_, ?_, ?_⟩
  · intro s hs hsn
    obtain ⟨s1, hs1, hf⟩ := List.mem_map.mp hs
    by_cases h : s1.seat_number = n
    · rw [if_pos h] at hf
      rw [← hf]
      exact ⟨rfl, rfl, rfl, rfl⟩
    · rw [if_neg h] at hf
      exact absurd (hf ▸ hsn) h
  · intro s hs hne
    exact List.mem_map.mpr ⟨s, hs, by simp [hne]⟩
  · have htrain2 : (db.setTable table (rows.map (fun s =>
        if s.seat_number = n then
          { s with
              booked := false
              passenger_name := none
              passenger_age := none
              passenger_gender := none }
        else s))).trains.any (fun t => t.train_number == tn) = true := by
      rw [setTable_trains]
      exact htrain
    have h22 := getTable_setTable_self db table (rows.map (fun s =>
        if s.seat_number = n then
          { s with
              booked := false
              passenger_name := none
              passenger_age := none
              passenger_gender := none }
        else s))
    have hany2 : (rows.map (fun s =>
        if s.seat_number = n then
          { s with
              booked := false
              passenger_name := none
              passenger_age := none
              passenger_gender := none }
        else s)).any (fun s => s.seat_number == n) = true := by
      refine List.any_eq_true.mpr ⟨_, List.mem_map.mpr ⟨s0, hs0, rfl⟩, ?_⟩
      by_cases h : s0.seat_number = n
      · simp [h]
      · exact absurd hsn0 h
    rw [cancel_tickets]
    simp only [htrain2, Bool.not_true, Bool.false_eq_true, if_false, h1, h22,
      hany2, clear_if_beq_eq, clear_map_idem,
      setTable_setTable]

/-- Witness for C5: cancelling seat 4 of the seeded `T1` twice. -/
theorem cancel_clears_and_idempotent_witness :
    ∃ rows1,
      cancel_tickets dbW "T1" 4 =
        (CancelResult.success, dbW.setTable "seats_T1" rows1) ∧
      rows1 = (seedRows 50).map (fun s =>
        if s.seat_number = 4 then
          { s with
              booked := false
              passenger_name := none
              passenger_age := none
              passenger_gender := none }
        else s) ∧
      (∀ s ∈ rows1, s.seat_number = 4 →
        s.booked = false ∧ s.passenger_name = none ∧ s.passenger_age = none ∧
          s.passenger_gender = none) ∧
      (∀ s ∈ seedRows 50, s.seat_number ≠ 4 → s ∈ rows1) ∧
      cancel_tickets (dbW.setTable "seats_T1" rows1) "T1" 4 =
        (CancelResult.success, dbW.setTable "seats_T1" rows1) :=
  cancel_clears_and_idempotent dbW "T1" "seats_T1" 4 (seedRows 50)
    (by decide) (by decide) (by decide)
    ⟨{ seat_number := 4, seat_type := "Window", booked := false,
       passenger_name := none, passenger_age := none, passenger_gender := none },
     by decide, by decide⟩

/-! ### Train creation -/

theorem sanitize_some (tn tn2 : String)
    (h : sanitize_train_number tn = some tn2) :
    tn.isEmpty = false ∧ tn2 = tn := by
  rw [sanitize_train_number] at h
  by_cases he : (!tn.isEmpty && tn.data.all identChar) = true
  · rw [if_pos he] at h
    have h1 : tn.isEmpty = false ∧ tn.data.all identChar = true := by
      simpa using he
    exact ⟨h1.1, (Option.some.inj h).symm⟩
  · rw [if_neg he] at h
    exact absurd h (by simp)

theorem seat_table_name_of_sanitize (tn tn2 : String)
    (h : sanitize_train_number tn = some tn2) :
    seat_table_name tn = some ("seats_" ++ tn2) := by
  rw [seat_table_name, h]
  rfl

theorem seedRows_length (total : Nat) : (seedRows total).length = total := by
  simp [seedRows]

theorem seedRows_numbers (total : Nat) :
    (seedRows total).map Seat.seat_number =
      (List.range total).map (fun i => i + 1) := by
  rw [seedRows, List.map_map]
  rfl

theorem seedRows_fields (total : Nat) :
    ∀ s ∈ seedRows total, s.booked = false ∧ s.passenger_name = none ∧
      s.passenger_age = none ∧ s.passenger_gender = none ∧
      s.seat_type = categorize_seat s.seat_number := by
  intro s hs
  rw [seedRows] at hs
  obtain ⟨i, _, rfl⟩ := List.mem_map.mp hs
  exact ⟨rfl, rfl, rfl, rfl, rfl⟩

/-- C6: `add_train` on a fresh, valid identifier succeeds and the seat
inventory it creates has exactly 50 seats numbered 1..50, all unbooked with
empty passenger fields, each stored category being the classification rule
applied to its seat number. -/
theorem add_train_seeds_inventory (db : DB) (tn nm d sd ed : String)
    (hsan : sanitize_train_number tn = some tn)
    (hnm : nm.isEmpty = false) (hsd : sd.isEmpty = false)
    (hed : ed.isEmpty = false)
    (hdup : db.trains.any (fun t => t.train_number == tn) = false)
    (hfresh : db.getTable ("seats_" ++ tn) = none) :
    ∃ db2, add_train db tn nm d sd ed = (AddResult.success, db2) ∧
      db2.getTable ("seats_" ++ tn) = some (seedRows 50) ∧
      (seedRows 50).length = 50 ∧
      (seedRows 50).map Seat.seat_number = (List.range 50).map (fun i => i + 1) ∧
      (∀ s ∈ seedRows 50, s.booked = false ∧ s.passenger_name = none ∧
        s.passenger_age = none ∧ s.passenger_gender = none ∧
        s.seat_type = categorize_seat s.seat_number) := by
  have htn : tn.isEmpty = false := (sanitize_some tn tn hsan).1
  have hname : seat_table_name tn = some ("seats_" ++ tn) :=
    seat_table_name_of_sanitize tn tn hsan
  have hfresh2 : (DB.mk (db.trains ++
      [{ train_number := tn, train_name := nm, departure_date := d,
         starting_destination := sd, ending_destination := ed }])
      db.tables).getTable ("seats_" ++ tn) = none := hfresh
  have hens := ensure_fresh (DB.mk (db.trains ++
      [{ train_number := tn, train_name := nm, departure_date := d,
         starting_destination := sd, ending_destination := ed }])
      db.tables) tn ("seats_" ++ tn) 50 hname hfresh2
  have hadd : add_train db tn nm d sd ed = (AddResult.success,
      (DB.mk (db.trains ++
        [{ train_number := tn, train_name := nm, departure_date := d,
           starting_destination := sd, ending_destination := ed }])
        db.tables).setTable ("seats_" ++ tn) (seedRows 50)) := by
    rw [add_train]
    simp only [htn, hnm, hsd, hed, Bool.or_self, Bool.false_eq_true, if_false,
      hsan, hdup, hens]
  exact ⟨_, hadd, getTable_setTable_self _ _ _, seedRows_length 50,
    seedRows_numbers 50, seedRows_fields 50⟩

/-- C8 counterexample: `add_train` with an *empty departure date* is not
rejected — on the empty database it succeeds, so `CreateTrain` does not
validate all five fields for non-emptiness. -/
theorem add_train_empty_date_not_rejected :
    (add_train dbE "T1" "Express" "" "A" "B").1 = AddResult.success ∧
    (add_train dbE "T1" "Express" "" "A" "B").1 ≠ AddResult.validationError := by
  decide

/-- C8 (amended): `add_train` validates that the identifier, name, start and
end are non-empty and that the identifier matches `[A-Za-z0-9_]+`, failing
with `validationError` otherwise; the departure date is not checked.  When
those four fields are non-empty and the identifier matches the pattern, the
call never fails with `validationError`. -/
theorem add_train_validation (db : DB) (tn nm d sd ed : String) :
    ((tn = "" ∨ nm = "" ∨ sd = "" ∨ ed = "") →
      add_train db tn nm d sd ed = (AddResult.validationError, db)) ∧
    (sanitize_train_number tn = none →
      add_train db tn nm d sd ed = (AddResult.validationError, db)) ∧
    (∀ tn2, sanitize_train_number tn = some tn2 → nm ≠ "" → sd ≠ "" → ed ≠ "" →
      (add_train db tn nm d sd ed).1 ≠ AddResult.validationError) := by
  refine ⟨?_, ?_, ?_⟩
  · intro h
    have hc : (tn.isEmpty || nm.isEmpty || sd.isEmpty || ed.isEmpty) = true := by
      rcases h with h | h | h | h <;> subst h <;>
        simp [show ("" : String).isEmpty = true from rfl]
    rw [add_train, if_pos hc]
  · intro hs
    rw [add_train]
    cases hc : (tn.isEmpty || nm.isEmpty || sd.isEmpty || ed.isEmpty) with
    | true => simp [hc]
    | false => simp [hc, hs]
  · intro tn2 hsan hnm hsd hed
    obtain ⟨htn, heq⟩ := sanitize_some tn tn2 hsan
    subst heq
    have hnm2 : nm.isEmpty = false :=
      Bool.eq_false_iff.mpr (fun h => hnm ((String.isEmpty_iff nm).mp h))
    have hsd2 : sd.isEmpty = false :=
      Bool.eq_false_iff.mpr (fun h => hsd ((String.isEmpty_iff sd).mp h))
    have hed2 : ed.isEmpty = false :=
      Bool.eq_false_iff.mpr (fun h => hed ((String.isEmpty_iff ed).mp h))
    rw [add_train]
    simp only [htn, hnm2, hsd2, hed2, Bool.or_self, Bool.false_eq_true,
      if_false, hsan]
    by_cases hdup : db.trains.any (fun t => t.train_number == tn2) = true
    · simp [hdup]
    · have hdup2 : db.trains.any (fun t => t.train_number == tn2) = false :=
        Bool.eq_false_iff.mpr hdup
      simp only [hdup2, Bool.false_eq_true, if_false]
      cases hen : ensure_seat_table (DB.mk (db.trains ++
          [{ train_number := tn2, train_name := nm, departure_date := d,
             starting_destination := sd, ending_destination := ed }])
          db.tables) tn2 50 with
      | none => simp [hen]
      | some db2 => simp [hen]

/-- Witness for C6: creating `T1` in the empty database. -/
theorem add_train_seeds_inventory_witness :
    ∃ db2, add_train dbE "T1" "Express" "2025-01-01" "A" "B" =
        (AddResult.success, db2) ∧
      db2.getTable ("seats_" ++ "T1") = some (seedRows 50) ∧
      (seedRows 50).length = 50 ∧
      (seedRows 50).map Seat.seat_number = (List.range 50).map (fun i => i + 1) ∧
      (∀ s ∈ seedRows 50, s.booked = false ∧ s.passenger_name = none ∧
        s.passenger_age = none ∧ s.passenger_gender = none ∧
        s.seat_type = categorize_seat s.seat_number) :=
  add_train_seeds_inventory dbE "T1" "Express" "2025-01-01" "A" "B"
    (by decide) (by decide) (by decide) (by decide) (by decide) (by decide)

/-- Witness for C8 (amended): an identifier with a space is rejected, and a
well-formed identifier is not rejected by validation. -/
theorem add_train_validation_witness :
    add_train dbE "12 34" "Express" "2025-01-01" "A" "B" =
      (AddResult.validationError, dbE) ∧
    add_train dbE "" "Express" "2025-01-01" "A" "B" =
      (AddResult.validationError, dbE) ∧
    (add_train dbE "RJ12_EXP" "Express" "2025-01-01" "A" "B").1 ≠
      AddResult.validationError :=
  ⟨(add_train_validation dbE "12 34" "Express" "2025-01-01" "A" "B").2.1
      (by decide),
   (add_train_validation dbE "" "Express" "2025-01-01" "A" "B").1
      (Or.inl rfl),
   (add_train_validation dbE "RJ12_EXP" "Express" "2025-01-01" "A" "B").2.2
      "RJ12_EXP" (by decide) (by decide) (by decide) (by decide)⟩

/-! ### Train deletion -/

theorem find?_filter_bne_self (l : List (String × List Seat)) (table : String) :
    (l.filter (fun p => p.1 != table)).find? (fun p => p.1 == table) = none := by
  rw [List.find?_eq_none]
  intro p hp
  have h := (List.mem_filter.mp hp).2
  simp only [bne_iff_ne, ne_eq] at h
  simp [h]

theorem find?_filter_bne_ne (l : List (String × List Seat)) (table t2 : String)
    (h : t2 ≠ table) :
    (l.filter (fun p => p.1 != table)).find? (fun p => p.1 == t2) =
      l.find? (fun p => p.1 == t2) := by
  induction l with
  | nil => rfl
  | cons a l ih =>
    by_cases ha : a.1 = table
    · have hb : (a.1 != table) = false := by simp [bne, ha]
      have ha2 : (a.1 == t2) = false := by
        refine beq_eq_false_iff_ne.mpr ?_
        rw [ha]
        exact Ne.symm h
      simp only [List.filter_cons, hb, Bool.false_eq_true, if_false,
        List.find?_cons, ha2, ih]
    · have hb : (a.1 != table) = true := by
        simp [bne, beq_eq_false_iff_ne.mpr ha]
      by_cases hc : a.1 = t2
      · have hc2 : (a.1 == t2) = true := by simp [hc]
        simp only [List.filter_cons, hb, if_true, List.find?_cons, hc2]
      · have hc2 : (a.1 == t2) = false := beq_eq_false_iff_ne.mpr hc
        simp only [List.filter_cons, hb, if_true, List.find?_cons, hc2, ih]

/-- C7: `delete_train` fails with `notFound` (unchanged database) when the
train id is unknown; fails with `dateMismatch` (unchanged database) when the
supplied date differs from the stored departure date; and with the matching
date it succeeds, removing both the seat inventory and every train record
with that id, while every other table is untouched. -/
theorem delete_train_checks (db : DB) (tn dstr : String) :
    (db.trains.find? (fun t => t.train_number == tn) = none →
      delete_train db tn dstr = (DeleteResult.notFound, db)) ∧
    (∀ row, db.trains.find? (fun t => t.train_number == tn) = some row →
      row.departure_date ≠ dstr →
      delete_train db tn dstr = (DeleteResult.dateMismatch, db)) ∧
    (∀ row table, db.trains.find? (fun t => t.train_number == tn) = some row →
      row.departure_date = dstr → seat_table_name tn = some table →
      ∃ db2, delete_train db tn dstr = (DeleteResult.success, db2) ∧
        db2.getTable table = none ∧
        (∀ tr ∈ db2.trains, tr.train_number ≠ tn) ∧
        (∀ tr ∈ db2.trains, tr ∈ db.trains) ∧
        (∀ t2, t2 ≠ table → db2.getTable t2 = db.getTable t2)) := by
  refine ⟨?_, ?_, ?_⟩
  · intro h
    rw [delete_train]
    simp only [h]
  · intro row hrow hne
    have hb : (row.departure_date != dstr) = true := by
      simp [bne, beq_eq_false_iff_ne.mpr hne]
    rw [delete_train]
    simp only [hrow, hb, if_true]
  · intro row table hrow hdate hname
    have hb : (row.departure_date != dstr) = false := by
      simp [bne, hdate]
    refine ⟨DB.mk (db.trains.filter (fun t => t.train_number != tn))
      (db.tables.filter (fun p => p.1 != table)), ?_, ?_, ?_, ?_, ?_⟩
    · rw [delete_train]
      simp only [hrow, hb, Bool.false_eq_true, if_false, hname]
    · rw [DB.getTable]
      rw [find?_filter_bne_self db.tables table]
      rfl
    · intro tr htr
      have h2 := (List.mem_filter.mp htr).2
      simpa [bne_iff_ne] using h2
    · intro tr htr
      exact (List.mem_filter.mp htr).1
    · intro t2 ht2
      rw [DB.getTable, DB.getTable, find?_filter_bne_ne db.tables table t2 ht2]

/-- Witness for C7: deleting `T1` with a missing train, a wrong date and the
right date. -/
theorem delete_train_checks_witness :
    (delete_train dbE "T1" "2025-01-01" = (DeleteResult.notFound, dbE)) ∧
    (delete_train dbW "T1" "2024-12-31" = (DeleteResult.dateMismatch, dbW)) ∧
    (∃ db2, delete_train dbW "T1" "2025-01-01" = (DeleteResult.success, db2) ∧
      db2.getTable "seats_T1" = none ∧
      (∀ tr ∈ db2.trains, tr.train_number ≠ "T1") ∧
      (∀ tr ∈ db2.trains, tr ∈ dbW.trains) ∧
      (∀ t2, t2 ≠ "seats_T1" → db2.getTable t2 = dbW.getTable t2)) :=
  ⟨(delete_train_checks dbE "T1" "2025-01-01").1 (by decide),
   (delete_train_checks dbW "T1" "2024-12-31").2.1
     { train_number := "T1", train_name := "Express",
       departure_date := "2025-01-01", starting_destination := "A",
       ending_destination := "B" } (by decide) (by decide),
   (delete_train_checks dbW "T1" "2025-01-01").2.2
     { train_number := "T1", train_name := "Express",
       departure_date := "2025-01-01", starting_destination := "A",
       ending_destination := "B" } "seats_T1" (by decide) (by decide)
     (by decide)⟩

/-! ### The booked/unbooked seat invariant -/

/-- A seat is in a consistent state: booked with all three passenger fields
populated, or unbooked with all three passenger fields empty. -/
def SeatOK (s : Seat) : Prop :=
  (s.booked = true → s.passenger_name.isSome = true ∧
    s.passenger_age.isSome = true ∧ s.passenger_gender.isSome = true) ∧
  (s.booked = false → s.passenger_name = none ∧ s.passenger_age = none ∧
    s.passenger_gender = none)

instance (s : Seat) : Decidable (SeatOK s) := by
  unfold SeatOK
  infer_instance

/-- Every seat stored in any table of the database is in a consistent
state. -/
def DBOK (db : DB) : Prop :=
  ∀ p ∈ db.tables, ∀ s ∈ p.2, SeatOK s

instance (db : DB) : Decidable (DBOK db) := by
  unfold DBOK
  infer_instance

theorem seedRows_OK (total : Nat) : ∀ s ∈ seedRows total, SeatOK s := by
  intro s hs
  obtain ⟨hb, h1, h2, h3, _⟩ := seedRows_fields total s hs
  refine ⟨fun h => ?_, fun _ => ⟨h1, h2, h3⟩⟩
  rw [hb] at h
  exact absurd h (by decide)

theorem DBOK_setTable (db : DB) (t : String) (rows : List Seat)
    (hdb : DBOK db) (hrows : ∀ s ∈ rows, SeatOK s) :
    DBOK (db.setTable t rows) := by
  intro p hp s hs
  by_cases h : db.tables.any (fun p => p.1 == t) = true
  · rw [setTable_tables_pos db t rows h] at hp
    obtain ⟨q, hq, hf⟩ := List.mem_map.mp hp
    by_cases hqt : (q.1 == t) = true
    · rw [if_pos hqt] at hf
      rw [← hf] at hs
      exact hrows s hs
    · rw [if_neg hqt] at hf
      rw [← hf] at hs
      exact hdb q hq s hs
  · rw [setTable_tables_neg db t rows (Bool.eq_false_iff.mpr h)] at hp
    rcases List.mem_append.mp hp with hp | hp
    · exact hdb p hp s hs
    · have : p = (t, rows) := by simpa using hp
      rw [this] at hs
      exact hrows s hs

theorem getTable_OK (db : DB) (t : String) (rows : List Seat)
    (hdb : DBOK db) (h : db.getTable t = some rows) : ∀ s ∈ rows, SeatOK s := by
  rw [DB.getTable] at h
  cases hf : db.tables.find? (fun p => p.1 == t) with
  | none =>
    rw [hf] at h
    cases h
  | some q =>
    rw [hf, show (some q).map Prod.snd = some q.2 from rfl] at h
    have hq : q ∈ db.tables := List.mem_of_find?_eq_some hf
    rw [← Option.some.inj h]
    exact hdb q hq

theorem ensure_DBOK (db : DB) (tn : String) (total : Nat) (hdb : DBOK db) :
    ∀ db2, ensure_seat_table db tn total = some db2 → DBOK db2 := by
  intro db2 h
  rw [ensure_seat_table] at h
  cases hn : seat_table_name tn with
  | none =>
    rw [hn] at h
    cases h
  | some table =>
    simp only [hn] at h
    cases hg : db.getTable table with
    | none =>
      simp only [hg] at h
      rw [← Option.some.inj h]
      exact DBOK_setTable db table (seedRows total) hdb (seedRows_OK total)
    | some rows =>
      simp only [hg] at h
      by_cases hl : (rows.length == 0) = true
      · rw [if_pos hl] at h
        rw [← Option.some.inj h]
        exact DBOK_setTable db table (seedRows total) hdb (seedRows_OK total)
      · rw [if_neg hl] at h
        rw [← Option.some.inj h]
        exact hdb

theorem allocate_DBOK (db : DB) (tn cat : String) (r : Option Nat) (db1 : DB)
    (hdb : DBOK db)
    (h : allocate_next_available_seat db tn cat = some (r, db1)) :
    DBOK db1 := by
  rw [allocate_next_available_seat] at h
  cases he : ensure_seat_table db tn 50 with
  | none =>
    rw [he] at h
    cases h
  | some dbe =>
    have hdbe : DBOK dbe := ensure_DBOK db tn 50 hdb dbe he
    simp only [he] at h
    cases hn : seat_table_name tn with
    | none =>
      simp only [hn] at h
      exact Option.noConfusion h
    | some table =>
      simp only [hn] at h
      cases hg : dbe.getTable table with
      | none =>
        simp only [hg] at h
        exact Option.noConfusion h
      | some rows =>
        simp only [hg] at h
        have h2 := Option.some.inj h
        have h3 : dbe = db1 := congrArg Prod.snd h2
        rw [← h3]
        exact hdbe

theorem book_DBOK (db : DB) (tn nm g cat : String) (age : Int)
    (hdb : DBOK db) : DBOK (book_ticket db tn nm age g cat).2 := by
  rw [book_ticket]
  split
  · exact hdb
  · split
    · exact hdb
    · rename_i seatNum db1 heq
      have hdb1 : DBOK db1 := allocate_DBOK db tn cat seatNum db1 hdb heq
      split
      · exact hdb1
      · rename_i n
        split
        · exact hdb1
        · split
          · exact hdb1
          · rename_i table heq2
            split
            · exact hdb1
            · rename_i rows heq3
              refine DBOK_setTable db1 table _ hdb1 ?_
              intro s hs
              obtain ⟨q, hq, hf⟩ := List.mem_map.mp hs
              by_cases hqn : (q.seat_number == n) = true
              · rw [if_pos hqn] at hf
                rw [← hf]
                exact ⟨fun _ => ⟨rfl, rfl, rfl⟩,
                  fun hcontra => Bool.noConfusion hcontra⟩
              · rw [if_neg hqn] at hf
                rw [← hf]
                exact getTable_OK db1 table rows hdb1 heq3 q hq

theorem cancel_DBOK (db : DB) (tn : String) (n : Nat) (hdb : DBOK db) :
    DBOK (cancel_tickets db tn n).2 := by
  rw [cancel_tickets]
  split
  · exact hdb
  · split
    · exact hdb
    · rename_i table heq
      split
      · exact hdb
      · rename_i rows heq2
        split
        · exact hdb
        · refine DBOK_setTable db table _ hdb ?_
          intro s hs
          obtain ⟨q, hq, hf⟩ := List.mem_map.mp hs
          by_cases hqn : (q.seat_number == n) = true
          · rw [if_pos hqn] at hf
            rw [← hf]
            exact ⟨fun hcontra => Bool.noConfusion hcontra,
              fun _ => ⟨rfl, rfl, rfl⟩⟩
          · rw [if_neg hqn] at hf
            rw [← hf]
            exact getTable_OK db table rows hdb heq2 q hq

/-- C9: seeding a seat table, booking and cancelling all preserve the
invariant that each seat is either fully booked — flag set and all three
passenger fields populated — or fully unbooked — flag clear and all three
passenger fields empty; no operation leaves a seat in a partial state. -/
theorem operations_preserve_seat_invariant (db : DB) (tn nm g cat : String)
    (age : Int) (n total : Nat) (hdb : DBOK db) :
    (∀ db2, ensure_seat_table db tn total = some db2 → DBOK db2) ∧
    DBOK (book_ticket db tn nm age g cat).2 ∧
    DBOK (cancel_tickets db tn n).2 :=
  ⟨ensure_DBOK db tn total hdb, book_DBOK db tn nm g cat age hdb,
   cancel_DBOK db tn n hdb⟩

/-- Witness for C9: the invariant is preserved from the seeded `T1` state. -/
theorem operations_preserve_seat_invariant_witness :
    (∀ db2, ensure_seat_table dbW "T1" 50 = some db2 → DBOK db2) ∧
    DBOK (book_ticket dbW "T1" "Alice" 30 "Female" "Window").2 ∧
    DBOK (cancel_tickets dbW "T1" 4).2 :=
  operations_preserve_seat_invariant dbW "T1" "Alice" "Female" "Window" 30 4 50
    (by decide)

end Railway
